import Mathlib

/-!
Shallow embedding of the authentication and cart subsystem of the
`my_pytest_course` shop backend.

Sources embedded:
* `src/shop/cart/endpoints/endpoints_auth.py` — register / login / refresh / me
* `src/shop/cart/dependencies/dependencies_auth/dependencies.py` — `get_current_user`
* `src/shop/cart/repository.py` — `CartRepository`
* `src/shop/cart/endpoints/endpoints_cart.py` — protected cart endpoints
* `src/shop/cart/schemas/schemas_auth.py` — `UserInDB` response schema
* `main.py` — HTML-form login/register handlers and the `user_tokens` dict

The password hasher and the token codec live in `src/shop/cart/utils.py`,
which is imported throughout the repository but absent from the sources;
those two components are modelled from the specification (§4.1, §4.2, §6)
and are marked `Modelled from the spec:` below.

The database is modelled as an explicit value (a list of user rows plus a
next-identifier counter); SQLAlchemy queries `select(...).where(col == v)`
with `scalar_one_or_none()` become `List.find?` over the rows.
-/

namespace Shop

/-! ### Credential hasher (spec §4.1)

Modelled from the spec: `src/shop/cart/utils.py` (functions
`get_password_hash`, `verify_password`) is missing from the sources.
Per §4.1 the digest embeds a salt, and `verify(plaintext, digest)` is true
iff the plaintext, hashed with the digest's embedded salt, equals the
digest.  One-wayness is a computational property outside the embedding;
the keyed digest primitive is modelled as an injective function of
(salt, plaintext), the ideal behaviour of a collision-free hash. -/

/-- A password digest: the embedded salt plus the digest body. -/
structure Digest where
  salt : Nat
  body : String
deriving Repr, DecidableEq

/-- The ideal digest primitive: an injective function of salt and plaintext. -/
def hashBody (salt : Nat) (plaintext : String) : String :=
  toString salt ++ "$" ++ plaintext

/-- Modelled from the spec: `get_password_hash` of the missing
`src/shop/cart/utils.py` — salted one-way hash; the salt is passed
explicitly since salting is the only nondeterminism. -/
def get_password_hash (salt : Nat) (plaintext : String) : Digest :=
  ⟨salt, hashBody salt plaintext⟩

/-- Modelled from the spec: `verify_password` of the missing
`src/shop/cart/utils.py` — re-hash the plaintext with the digest's
embedded salt and compare. -/
def verify_password (plaintext : String) (d : Digest) : Bool :=
  d.body == hashBody d.salt plaintext

theorem hashBody_inj (salt : Nat) {p p' : String}
    (h : hashBody salt p = hashBody salt p') : p = p' := by
  unfold hashBody at h
  have h2 : (toString salt ++ "$").data ++ p.data
      = (toString salt ++ "$").data ++ p'.data := by
    have := congrArg String.data h
    simpa [String.data_append, List.append_assoc] using this
  have h3 : p.data = p'.data := List.append_cancel_left h2
  cases p; cases p'
  exact congrArg String.mk h3

/-! ### Token codec (spec §4.2, §6)

Modelled from the spec: `src/shop/cart/utils.py` (functions
`create_access_token`, `decode_access_token`, constant
`ACCESS_TOKEN_EXPIRE_MINUTES`) is missing from the sources.  Per §4.2/§6
a token is a compact signed string carrying `{sub, iat, exp}`; decoding
fails `Malformed` when the string is not well-formed, `InvalidSignature`
when the integrity check does not match (in particular when signed under
a different secret), and `Expired` when the current time exceeds the
embedded expiry.  The MAC is modelled as an injective function of
(secret, payload), the ideal behaviour of an unforgeable signature. -/

/-- The claim a token carries: `{sub, iat, exp}` (spec §6). -/
structure TokenClaim where
  sub : String
  iat : Nat
  exp : Nat
deriving Repr, DecidableEq

/-- The ideal MAC: an injective function of secret and payload. -/
def sign (secret : String) (c : TokenClaim) : String × TokenClaim :=
  (secret, c)

/-- A token string on the wire: either a structurally well-formed signed
payload, or any other string (truncated, wrong segment count, ...). -/
inductive TokenString where
  | signed (claim : TokenClaim) (sig : String × TokenClaim) : TokenString
  | garbage (raw : String) : TokenString
deriving Repr, DecidableEq

/-- Spec §6: default TTL 30 minutes, in seconds. -/
def ACCESS_TOKEN_EXPIRE_MINUTES : Nat := 30

def defaultTTL : Nat := ACCESS_TOKEN_EXPIRE_MINUTES * 60

/-- Modelled from the spec: `create_access_token` of the missing
`src/shop/cart/utils.py` — embed the subject with issuance and expiry
timestamps and sign with the secret. -/
def create_access_token (secret : String) (sub : String) (now ttl : Nat) :
    TokenString :=
  let c : TokenClaim := ⟨sub, now, now + ttl⟩
  .signed c (sign secret c)

inductive DecodeError where
  | InvalidSignature
  | Expired
  | Malformed
deriving Repr, DecidableEq

/-- Modelled from the spec: `decode_access_token` of the missing
`src/shop/cart/utils.py` — reject ill-formed strings as `Malformed`,
check the MAC, then the embedded expiry against the current time. -/
def decode_access_token (secret : String) (now : Nat) :
    TokenString → Except DecodeError TokenClaim
  | .garbage _ => .error .Malformed
  | .signed c sig =>
    if sig ≠ sign secret c then .error .InvalidSignature
    else if c.exp < now then .error .Expired
    else .ok c

/-! ### Data model: `src/shop/cart/models/models_auth.py` (`User`) and the
user store.  SQLAlchemy sessions over the `users` table become a list of
rows plus the autoincrement counter. -/

/-- `User` ORM row (`models_auth.py`): id, username, email,
hashed_password, is_active (default true), created_at. -/
structure User where
  id : Nat
  username : String
  email : String
  hashed_password : Digest
  is_active : Bool
  created_at : Nat
deriving Repr, DecidableEq

/-- The persistent user store: the `users` table plus its autoincrement
primary-key counter. -/
structure DB where
  users : List User
  nextId : Nat
deriving Repr, DecidableEq

/-- `select(User).where(User.username == u)` + `scalar_one_or_none()`
(usernames are unique, so the first match is the only one). -/
def find_by_username (db : DB) (u : String) : Option User :=
  db.users.find? (fun r => r.username == u)

/-- `select(User).where(User.email == e)` + `scalar_one_or_none()`. -/
def find_by_email (db : DB) (e : String) : Option User :=
  db.users.find? (fun r => r.email == e)

/-- An HTTP error response: status code and `detail` body. -/
structure HTTPErr where
  status : Nat
  detail : String
deriving Repr, DecidableEq

/-- `UserInDB` response schema (`schemas_auth.py`): exactly
id, username, email, is_active. -/
structure UserInDB where
  id : Nat
  username : String
  email : String
  is_active : Bool
deriving Repr, DecidableEq

/-- FastAPI's `response_model=UserInDB` serialization of a `User` row:
project onto the schema's declared fields. -/
def toUserInDB (u : User) : UserInDB :=
  ⟨u.id, u.username, u.email, u.is_active⟩

/-- A rendered JSON field value (number, string or boolean). -/
inductive JsonVal where
  | num (n : Nat)
  | str (s : String)
  | bool (b : Bool)
deriving Repr, DecidableEq

/-- The JSON object FastAPI renders from a `UserInDB` value: one key per
schema field, in declaration order. -/
def renderUserInDB (u : UserInDB) : List (String × JsonVal) :=
  [("id", .num u.id), ("username", .str u.username),
   ("email", .str u.email), ("is_active", .bool u.is_active)]

/-- `Token` response schema (`schemas_auth.py`). -/
structure TokenResponse where
  access_token : TokenString
  token_type : String
deriving Repr, DecidableEq

/-! ### Auth endpoints: `src/shop/cart/endpoints/endpoints_auth.py` -/

/-- The row built by `User(username=..., email=..., hashed_password=...)`
— shared by the register handlers of `endpoints_auth.py` and `main.py`:
id from the autoincrement counter, `is_active` defaulting to true,
`created_at` to the current time. -/
def new_user_row (db : DB) (salt now : Nat) (username email password : String) :
    User :=
  ⟨db.nextId, username, email, get_password_hash salt password, true, now⟩

/-- `POST /auth/register` (`endpoints_auth.py`, `register`): check the
username for duplicates, then the email; hash the password and insert the
new row; respond 201 with the row serialized through `UserInDB`. -/
def register (db : DB) (salt now : Nat) (username email password : String) :
    Except HTTPErr (DB × UserInDB) :=
  match find_by_username db username with
  | some _ => .error ⟨400, "Username already registered"⟩
  | none =>
    match find_by_email db email with
    | some _ => .error ⟨400, "Email already registered"⟩
    | none =>
      let new_user : User := new_user_row db salt now username email password
      .ok (⟨db.users ++ [new_user], db.nextId + 1⟩, toUserInDB new_user)

/-- `POST /auth/login` (`endpoints_auth.py`, `login`): look up by
username; a missing user or a failed password check both yield
401 "Incorrect username or password"; an inactive user yields
400 "Inactive user"; otherwise issue a token with `sub = username`
and the 30-minute TTL. -/
def login (db : DB) (secret : String) (now : Nat)
    (username password : String) : Except HTTPErr TokenResponse :=
  match find_by_username db username with
  | none => .error ⟨401, "Incorrect username or password"⟩
  | some user =>
    if ¬ verify_password password user.hashed_password then
      .error ⟨401, "Incorrect username or password"⟩
    else if ¬ user.is_active then
      .error ⟨400, "Inactive user"⟩
    else
      .ok ⟨create_access_token secret user.username now defaultTTL, "bearer"⟩

/-- `get_current_user` (`dependencies.py`): decode the bearer token (any
decode failure collapses to 401 "Could not validate credentials"), then
look up the subject's row; a missing row is the same 401.  The row is
returned as the current identity with no further checks. -/
def get_current_user (db : DB) (secret : String) (now : Nat)
    (token : TokenString) : Except HTTPErr User :=
  let credentials_exception : HTTPErr := ⟨401, "Could not validate credentials"⟩
  match decode_access_token secret now token with
  | .error _ => .error credentials_exception
  | .ok payload =>
    match find_by_username db payload.sub with
    | none => .error credentials_exception
    | some user => .ok user

/-- `POST /auth/refresh` (`endpoints_auth.py`, `refresh_token`): issue a
fresh token for the already-resolved current user. -/
def refresh_token (secret : String) (now : Nat) (current_user : User) :
    TokenResponse :=
  ⟨create_access_token secret current_user.username now defaultTTL, "bearer"⟩

/-- `GET /auth/me` (`endpoints_auth.py`, `read_users_me`): return the
current user serialized through `UserInDB`. -/
def read_users_me (current_user : User) : UserInDB :=
  toUserInDB current_user

/-! ### Cart data model and repository

`src/shop/cart/models/models_cart.py` declares `Cart` with a
`user_id` foreign key; `src/shop/cart/repository.py` is the
`CartRepository` the protected endpoints delegate to.  `Decimal` prices
are modelled as exact naturals. -/

/-- `Cart` ORM row (`models_cart.py`): id, item, quantity, price,
user_id (annotated `Optional[int]`), created_at, updated_at. -/
structure Cart where
  id : Nat
  item : String
  quantity : Nat
  price : Nat
  user_id : Option Nat
  created_at : Nat
  updated_at : Nat
deriving Repr, DecidableEq

/-- `Cart.total_price` property: `price * quantity`. -/
def Cart.total_price (c : Cart) : Nat := c.price * c.quantity

/-- The `cart` table plus its autoincrement counter. -/
structure CartDB where
  items : List Cart
  nextId : Nat
deriving Repr, DecidableEq

/-- Insert into a list kept in descending `created_at` order. -/
def insertByCreatedDesc (c : Cart) : List Cart → List Cart
  | [] => [c]
  | x :: xs =>
    if x.created_at ≤ c.created_at then c :: x :: xs
    else x :: insertByCreatedDesc c xs

/-- `order_by(Cart.created_at.desc())`. -/
def orderByCreatedDesc : List Cart → List Cart
  | [] => []
  | x :: xs => insertByCreatedDesc x (orderByCreatedDesc xs)

namespace CartRepository

/-- `CartRepository.create_cart_item(cart_data)` (`repository.py`): build
a row from the schema fields `item`, `quantity`, `price` only — the
method takes no user identity and records none (`user_id` stays unset). -/
def create_cart_item (db : CartDB) (item : String) (quantity price : Nat)
    (now : Nat) : CartDB × Cart :=
  let cart_item : Cart :=
    ⟨db.nextId, item, quantity, price, none, now, now⟩
  (⟨db.items ++ [cart_item], db.nextId + 1⟩, cart_item)

/-- `CartRepository.get_cart_item(item_id)` (`repository.py`):
`select(Cart).where(Cart.id == item_id)` — the only predicate is the
row id; no owner filter. -/
def get_cart_item (db : CartDB) (item_id : Nat) : Option Cart :=
  db.items.find? (fun c => c.id == item_id)

/-- `CartRepository.get_all_cart_items(skip, limit)` (`repository.py`):
`select(Cart).offset(skip).limit(limit).order_by(created_at.desc())` —
every row of the table, paginated; no owner filter. -/
def get_all_cart_items (db : CartDB) (skip : Nat := 0) (limit : Nat := 100) :
    List Cart :=
  ((orderByCreatedDesc db.items).drop skip).take limit

/-- `CartRepository.delete_cart_item(item_id)` (`repository.py`): fetch
by id, delete if present. -/
def delete_cart_item (db : CartDB) (item_id : Nat) : CartDB × Bool :=
  match get_cart_item db item_id with
  | none => (db, false)
  | some _ => (⟨db.items.filter (fun c => c.id != item_id), db.nextId⟩, true)

/-- `CartRepository.clear_cart()` (`repository.py`): `delete(Cart)` with
no predicate — empties the whole table. -/
def clear_cart (db : CartDB) : CartDB × Nat :=
  (⟨[], db.nextId⟩, db.items.length)

/-- `CartRepository.get_cart_total_price()` (`repository.py`):
`select(Cart)` with no predicate, summing `total_price` over every row. -/
def get_cart_total_price (db : CartDB) : Nat :=
  db.items.foldl (fun total c => total + c.total_price) 0

end CartRepository

/-! ### HTML-form handlers in `main.py`

`main.py` keeps a module-level dict `user_tokens = {}` (line 57) and its
form login/register handlers write the issued token into it.  The dict is
modelled as an association list with Python-dict overwrite semantics. -/

/-- Python dict assignment `d[k] = v`: overwrite any existing binding. -/
def dictInsert (k : String) (v : TokenString)
    (store : List (String × TokenString)) : List (String × TokenString) :=
  (k, v) :: store.filter (fun kv => kv.1 != k)

/-- `POST /login` in `main.py`: look up by username; missing user or
failed verification returns the 401 login page and leaves all state
unchanged; otherwise issue a token, record it in `user_tokens[username]`,
and return the page embedding the token.  Note: no `is_active` check. -/
def mainLogin (db : DB) (store : List (String × TokenString))
    (secret : String) (now : Nat) (username password : String) :
    Except HTTPErr TokenString × List (String × TokenString) :=
  match find_by_username db username with
  | none => (.error ⟨401, "Неверное имя пользователя или пароль"⟩, store)
  | some user =>
    if ¬ verify_password password user.hashed_password then
      (.error ⟨401, "Неверное имя пользователя или пароль"⟩, store)
    else
      let access_token := create_access_token secret user.username now defaultTTL
      (.ok access_token, dictInsert user.username access_token store)

/-- `POST /register` in `main.py`: the four form fields are raw strings —
no length bound, no email-shape check.  Password-confirm equality, then
the two uniqueness checks; on success insert the user, immediately issue
a token and record it in `user_tokens[username]`. -/
def mainRegister (db : DB) (store : List (String × TokenString))
    (salt now : Nat) (secret : String)
    (username email password password_confirm : String) :
    Except HTTPErr (DB × List (String × TokenString) × TokenString) :=
  if password ≠ password_confirm then
    .error ⟨400, "Пароли не совпадают"⟩
  else
    match find_by_username db username with
    | some _ => .error ⟨400, "Пользователь с таким именем уже существует"⟩
    | none =>
      match find_by_email db email with
      | some _ => .error ⟨400, "Пользователь с таким email уже существует"⟩
      | none =>
        let new_user : User := new_user_row db salt now username email password
        let db' : DB := ⟨db.users ++ [new_user], db.nextId + 1⟩
        let access_token := create_access_token secret username now defaultTTL
        .ok (db', dictInsert username access_token store, access_token)

/-! ### Helper lemmas and sample data -/

theorem find?_append_of_none {α : Type} (p : α → Bool) (l₁ l₂ : List α)
    (h : l₁.find? p = none) : (l₁ ++ l₂).find? p = l₂.find? p := by
  induction l₁ with
  | nil => rfl
  | cons x xs ih =>
    cases hx : p x with
    | true =>
      rw [List.find?_cons_of_pos _ hx] at h
      exact absurd h (by simp)
    | false =>
      have hx' : ¬ p x = true := by simp [hx]
      rw [List.find?_cons_of_neg _ hx'] at h
      rw [List.cons_append, List.find?_cons_of_neg _ hx']
      exact ih h

theorem verify_hash_self (salt : Nat) (p : String) :
    verify_password p (get_password_hash salt p) = true := by
  simp [verify_password, get_password_hash]

def sampleHash : Digest := get_password_hash 3 "testpassword"

def sampleUser : User := ⟨1, "testuser", "test@example.com", sampleHash, true, 0⟩

def sampleDB : DB := ⟨[sampleUser], 2⟩

def inactiveUser : User :=
  ⟨2, "bob", "bob@example.com", get_password_hash 4 "bobpass", false, 5⟩

def inactiveDB : DB := ⟨[inactiveUser], 3⟩

end Shop

open Shop

/-! ### The claims -/

/-- C7: for every password `p` (and salt), `verify(p, hash(p))` is true,
and for every distinct pair `p ≠ p'`, `verify(p, hash(p'))` is false. -/
theorem C7_verify_hash_roundtrip (salt : Nat) (p p' : String) :
    verify_password p (get_password_hash salt p) = true ∧
    (p ≠ p' → verify_password p (get_password_hash salt p') = false) := by
  refine ⟨verify_hash_self salt p, fun hne => ?_⟩
  simp only [verify_password, get_password_hash]
  refine beq_eq_false_iff_ne.mpr (fun h => hne ?_)
  exact (hashBody_inj salt h).symm

theorem C7_verify_hash_roundtrip_witness :
    verify_password "pw123456" (get_password_hash 7 "pw123456") = true ∧
    verify_password "pw123456" (get_password_hash 7 "hunter2") = false := by
  obtain ⟨h1, h2⟩ := C7_verify_hash_roundtrip 7 "pw123456" "hunter2"
  exact ⟨h1, h2 (by decide)⟩

/-- C1: decoding fails `InvalidSignature` when the token was signed under
a different secret, `Expired` when the current time exceeds the embedded
expiry, `Malformed` when the string is not well-formed, and returns the
embedded claim exactly when all checks pass. -/
theorem C1_decode_checks (secret secret' sub raw : String) (iat ttl now : Nat) :
    (secret' ≠ secret →
      decode_access_token secret' now (create_access_token secret sub iat ttl)
        = .error .InvalidSignature) ∧
    (iat + ttl < now →
      decode_access_token secret now (create_access_token secret sub iat ttl)
        = .error .Expired) ∧
    (decode_access_token secret now (.garbage raw) = .error .Malformed) ∧
    (now ≤ iat + ttl →
      decode_access_token secret now (create_access_token secret sub iat ttl)
        = .ok ⟨sub, iat, iat + ttl⟩) := by
  refine ⟨fun hne => ?_, fun hexp => ?_, rfl, fun hok => ?_⟩
  · have hcond : sign secret (⟨sub, iat, iat + ttl⟩ : TokenClaim)
        ≠ sign secret' ⟨sub, iat, iat + ttl⟩ := by
      simp only [sign, ne_eq, Prod.mk.injEq, and_true]
      exact fun h => hne h.symm
    simp [decode_access_token, create_access_token, hcond]
  · simp [decode_access_token, create_access_token, sign, hexp]
  · simp [decode_access_token, create_access_token, sign, Nat.not_lt.mpr hok]

theorem C1_decode_checks_witness :
    decode_access_token "k2" 10 (create_access_token "k1" "alice" 0 1800)
      = .error .InvalidSignature ∧
    decode_access_token "k1" 2000 (create_access_token "k1" "alice" 0 1800)
      = .error .Expired ∧
    decode_access_token "k1" 10 (.garbage "abc") = .error .Malformed ∧
    decode_access_token "k1" 10 (create_access_token "k1" "alice" 0 1800)
      = .ok ⟨"alice", 0, 1800⟩ := by
  obtain ⟨h1, h2, h3, h4⟩ := C1_decode_checks "k1" "k2" "alice" "abc" 0 1800 10
  obtain ⟨_, h2', _, _⟩ := C1_decode_checks "k1" "k2" "alice" "abc" 0 1800 2000
  exact ⟨h1 (by decide), h2' (by decide), h3, h4 (by decide)⟩

/-- C3: a nonexistent username and a wrong password for an existing
username produce the identical login failure: 401 with detail
"Incorrect username or password". -/
theorem C3_login_enumeration_safe (db : DB) (secret : String) (now : Nat)
    (u p : String) :
    (find_by_username db u = none →
      login db secret now u p = .error ⟨401, "Incorrect username or password"⟩) ∧
    (∀ user, find_by_username db u = some user →
      verify_password p user.hashed_password = false →
      login db secret now u p = .error ⟨401, "Incorrect username or password"⟩) := by
  constructor
  · intro h
    simp [login, h]
  · intro user h hv
    simp [login, h, hv]

theorem C3_login_enumeration_safe_witness :
    login sampleDB "k" 0 "ghost" "pw"
      = .error ⟨401, "Incorrect username or password"⟩ ∧
    login sampleDB "k" 0 "testuser" "wrongpassword"
      = .error ⟨401, "Incorrect username or password"⟩ := by
  obtain ⟨h1, _⟩ := C3_login_enumeration_safe sampleDB "k" 0 "ghost" "pw"
  obtain ⟨_, h2⟩ := C3_login_enumeration_safe sampleDB "k" 0 "testuser" "wrongpassword"
  exact ⟨h1 (by decide), h2 sampleUser (by decide) (by decide)⟩

/-- C4: for a username and email not yet registered, register succeeds,
a subsequent login with the same password succeeds with a bearer token,
and authenticating that token (within its TTL) resolves to a record with
the same username. -/
theorem C4_register_login_authenticate (db : DB) (salt now nowAuth : Nat)
    (secret u e p : String)
    (hu : find_by_username db u = none) (he : find_by_email db e = none)
    (hfresh : nowAuth ≤ now + defaultTTL) :
    ∃ db' resp, register db salt now u e p = .ok (db', resp) ∧
      resp.username = u ∧
      ∃ tok, login db' secret now u p = .ok tok ∧ tok.token_type = "bearer" ∧
        ∃ rec, get_current_user db' secret nowAuth tok.access_token = .ok rec ∧
          rec.username = u := by
  have hu' : db.users.find? (fun r => r.username == u) = none := hu
  have hfind :
      find_by_username ⟨db.users ++ [new_user_row db salt now u e p], db.nextId + 1⟩ u
        = some (new_user_row db salt now u e p) := by
    show (db.users ++ [new_user_row db salt now u e p]).find?
        (fun r => r.username == u) = some (new_user_row db salt now u e p)
    rw [find?_append_of_none _ _ _ hu']
    simp [List.find?, new_user_row]
  have hver : verify_password p (new_user_row db salt now u e p).hashed_password
      = true := verify_hash_self salt p
  have hdec : decode_access_token secret nowAuth
      (create_access_token secret u now defaultTTL) = .ok ⟨u, now, now + defaultTTL⟩ := by
    simp [decode_access_token, create_access_token, Nat.not_lt.mpr hfresh]
  refine ⟨⟨db.users ++ [new_user_row db salt now u e p], db.nextId + 1⟩,
    toUserInDB (new_user_row db salt now u e p), ?_, rfl,
    ⟨create_access_token secret u now defaultTTL, "bearer"⟩, ?_, rfl,
    new_user_row db salt now u e p, ?_, rfl⟩
  · simp [register, hu, he]
  · have hact : (new_user_row db salt now u e p).is_active = true := rfl
    have hun : (new_user_row db salt now u e p).username = u := rfl
    simp [login, hfind, hver, hact, hun]
  · simp [get_current_user, hdec, hfind]

theorem C4_register_login_authenticate_witness :
    ∃ db' resp, register sampleDB 9 0 "u1" "u1@x.com" "pw123456" = .ok (db', resp) ∧
      resp.username = "u1" ∧
      ∃ tok, login db' "k" 0 "u1" "pw123456" = .ok tok ∧ tok.token_type = "bearer" ∧
        ∃ rec, get_current_user db' "k" 60 tok.access_token = .ok rec ∧
          rec.username = "u1" :=
  C4_register_login_authenticate sampleDB 9 0 60 "k" "u1" "u1@x.com" "pw123456"
    (by decide) (by decide) (by decide)

/-- C5 counterexample: `get_current_user` performs no active check — a
valid token whose subject is an inactive account resolves that inactive
record as the current identity, refuting "no authentication path yields
an inactive record". -/
theorem C5_counterexample :
    get_current_user inactiveDB "k" 0
        (create_access_token "k" "bob" 0 defaultTTL) = .ok inactiveUser ∧
    inactiveUser.is_active = false := by
  exact ⟨rfl, rfl⟩

/-- C5 amended: login for an inactive account with correct credentials
fails with 400 "Inactive user", but `get_current_user` never consults
`is_active`: a valid token for an existing inactive account resolves to
that inactive record as the current identity. -/
theorem C5_inactive_handling (db : DB) (secret : String) (now nowAuth : Nat)
    (u p : String) (user : User)
    (hfind : find_by_username db u = some user)
    (hver : verify_password p user.hashed_password = true)
    (hinactive : user.is_active = false)
    (hfresh : nowAuth ≤ now + defaultTTL) :
    login db secret now u p = .error ⟨400, "Inactive user"⟩ ∧
    get_current_user db secret nowAuth
      (create_access_token secret u now defaultTTL) = .ok user := by
  have hdec : decode_access_token secret nowAuth
      (create_access_token secret u now defaultTTL) = .ok ⟨u, now, now + defaultTTL⟩ := by
    simp [decode_access_token, create_access_token, Nat.not_lt.mpr hfresh]
  constructor
  · simp [login, hfind, hver, hinactive]
  · simp [get_current_user, hdec, hfind]

theorem C5_inactive_handling_witness :
    login inactiveDB "k" 0 "bob" "bobpass" = .error ⟨400, "Inactive user"⟩ ∧
    get_current_user inactiveDB "k" 60
      (create_access_token "k" "bob" 0 defaultTTL) = .ok inactiveUser :=
  C5_inactive_handling inactiveDB "k" 0 60 "bob" "bobpass" inactiveUser
    (by decide) (by decide) (by decide) (by decide)

/-- C6 counterexample: the form login of `main.py` records the issued
token in the module-level `user_tokens` dict — after this login the token
exists server-side, not only in the response. -/
theorem C6_counterexample :
    mainLogin sampleDB [] "k" 0 "testuser" "testpassword"
      = (.ok (create_access_token "k" "testuser" 0 defaultTTL),
         [("testuser", create_access_token "k" "testuser" 0 defaultTTL)]) := by
  rfl

/-- C6 amended: the `/auth` login and refresh return only the token
response and touch no token store, but the `main.py` form login writes
each issued token into the module-level `user_tokens` dict keyed by
username. -/
theorem C6_token_storage (db : DB) (store : List (String × TokenString))
    (secret : String) (now : Nat) (u p : String) (user : User)
    (hfind : find_by_username db u = some user)
    (hver : verify_password p user.hashed_password = true) :
    (mainLogin db store secret now u p).2
      = dictInsert user.username
          (create_access_token secret user.username now defaultTTL) store ∧
    (user.is_active = true →
      login db secret now u p
        = .ok ⟨create_access_token secret user.username now defaultTTL, "bearer"⟩) ∧
    refresh_token secret now user
      = ⟨create_access_token secret user.username now defaultTTL, "bearer"⟩ := by
  refine ⟨?_, fun hact => ?_, rfl⟩
  · simp [mainLogin, hfind, hver]
  · simp [login, hfind, hver, hact]

theorem C6_token_storage_witness :
    (mainLogin sampleDB [] "k" 0 "testuser" "testpassword").2
      = dictInsert "testuser" (create_access_token "k" "testuser" 0 defaultTTL) [] ∧
    (sampleUser.is_active = true →
      login sampleDB "k" 0 "testuser" "testpassword"
        = .ok ⟨create_access_token "k" "testuser" 0 defaultTTL, "bearer"⟩) ∧
    refresh_token "k" 0 sampleUser
      = ⟨create_access_token "k" "testuser" 0 defaultTTL, "bearer"⟩ :=
  C6_token_storage sampleDB [] "k" 0 "testuser" "testpassword" sampleUser
    (by decide) (by decide)

/-- C8: a duplicate username fails with 400 "Username already registered"
for every email (even one that is itself taken — the username check runs
first); a fresh username with a duplicate email fails with
400 "Email already registered". -/
theorem C8_duplicate_registration (db : DB) (salt now : Nat)
    (u1 e1 u2 e2 p : String)
    (hu1 : (find_by_username db u1).isSome = true)
    (hu2 : find_by_username db u2 = none)
    (he2 : (find_by_email db e2).isSome = true) :
    register db salt now u1 e1 p = .error ⟨400, "Username already registered"⟩ ∧
    register db salt now u2 e2 p = .error ⟨400, "Email already registered"⟩ := by
  obtain ⟨x, hx⟩ := Option.isSome_iff_exists.mp hu1
  obtain ⟨y, hy⟩ := Option.isSome_iff_exists.mp he2
  constructor
  · simp [register, hx]
  · simp [register, hu2, hy]

theorem C8_duplicate_registration_witness :
    register sampleDB 9 0 "testuser" "other@example.com" "pw123456"
      = .error ⟨400, "Username already registered"⟩ ∧
    register sampleDB 9 0 "otheruser" "test@example.com" "pw123456"
      = .error ⟨400, "Email already registered"⟩ :=
  C8_duplicate_registration sampleDB 9 0 "testuser" "other@example.com"
    "otheruser" "test@example.com" "pw123456" (by decide) (by decide) (by decide)

/-- C9: the success responses of register and GET /auth/me are serialized
through `UserInDB`, whose rendered JSON carries exactly the keys
id, username, email, is_active — never the stored password hash. -/
theorem C9_responses_hide_hash (db db' : DB) (salt now : Nat)
    (u e p : String) (resp : UserInDB) (current_user : User)
    (hreg : register db salt now u e p = .ok (db', resp)) :
    resp.username = u ∧
    (renderUserInDB resp).map Prod.fst = ["id", "username", "email", "is_active"] ∧
    "hashed_password" ∉ (renderUserInDB resp).map Prod.fst ∧
    (renderUserInDB (read_users_me current_user)).map Prod.fst
      = ["id", "username", "email", "is_active"] ∧
    "hashed_password" ∉ (renderUserInDB (read_users_me current_user)).map Prod.fst := by
  have hkeys1 : (renderUserInDB resp).map Prod.fst
      = ["id", "username", "email", "is_active"] := rfl
  have hkeys2 : (renderUserInDB (read_users_me current_user)).map Prod.fst
      = ["id", "username", "email", "is_active"] := rfl
  have hresp : resp.username = u := by
    unfold register at hreg
    cases hfu : find_by_username db u with
    | some x => rw [hfu] at hreg; exact absurd hreg (by simp)
    | none =>
      rw [hfu] at hreg
      cases hfe : find_by_email db e with
      | some y => rw [hfe] at hreg; exact absurd hreg (by simp)
      | none =>
        rw [hfe] at hreg
        simp only [Except.ok.injEq, Prod.mk.injEq] at hreg
        rw [← hreg.2]
        rfl
  refine ⟨hresp, hkeys1, ?_, hkeys2, ?_⟩
  · rw [hkeys1]; decide
  · rw [hkeys2]; decide

theorem C9_responses_hide_hash_witness :
    (toUserInDB (new_user_row sampleDB 9 0 "u1" "u1@x.com" "pw123456")).username = "u1" ∧
    (renderUserInDB (toUserInDB (new_user_row sampleDB 9 0 "u1" "u1@x.com" "pw123456"))).map
        Prod.fst = ["id", "username", "email", "is_active"] ∧
    "hashed_password" ∉ (renderUserInDB (toUserInDB
        (new_user_row sampleDB 9 0 "u1" "u1@x.com" "pw123456"))).map Prod.fst ∧
    (renderUserInDB (read_users_me sampleUser)).map Prod.fst
      = ["id", "username", "email", "is_active"] ∧
    "hashed_password" ∉ (renderUserInDB (read_users_me sampleUser)).map Prod.fst :=
  C9_responses_hide_hash sampleDB
    ⟨sampleDB.users ++ [new_user_row sampleDB 9 0 "u1" "u1@x.com" "pw123456"], 3⟩
    9 0 "u1" "u1@x.com" "pw123456"
    (toUserInDB (new_user_row sampleDB 9 0 "u1" "u1@x.com" "pw123456")) sampleUser
    rfl

/-- C10: the HTML-form registration of `main.py` applies none of the
schema bounds — for arbitrary username, email and password strings, it
creates the account and immediately issues a bearer token for it,
provided only that password equals password_confirm and the two
uniqueness checks pass. -/
theorem C10_form_register_unvalidated (db : DB)
    (store : List (String × TokenString)) (salt now : Nat)
    (secret u e p pc : String) (hpc : p = pc)
    (hu : find_by_username db u = none) (he : find_by_email db e = none) :
    mainRegister db store salt now secret u e p pc
      = .ok (⟨db.users ++ [new_user_row db salt now u e p], db.nextId + 1⟩,
             dictInsert u (create_access_token secret u now defaultTTL) store,
             create_access_token secret u now defaultTTL) := by
  subst hpc
  simp [mainRegister, hu, he]

theorem C10_form_register_unvalidated_witness :
    mainRegister (⟨[], 1⟩ : DB) [] 9 0 "k" "ab" "not-an-email" "12345" "12345"
      = .ok (⟨[new_user_row ⟨[], 1⟩ 9 0 "ab" "not-an-email" "12345"], 2⟩,
             dictInsert "ab" (create_access_token "k" "ab" 0 defaultTTL) [],
             create_access_token "k" "ab" 0 defaultTTL) :=
  C10_form_register_unvalidated ⟨[], 1⟩ [] 9 0 "k" "ab" "not-an-email"
    "12345" "12345" rfl (by decide) (by decide)

def aliceCartRow : Cart := ⟨1, "apple", 1, 10, some 1, 50, 50⟩

def bobCartRow : Cart := ⟨2, "pen", 2, 5, some 2, 60, 60⟩

def sharedCartDB : CartDB := ⟨[aliceCartRow, bobCartRow], 3⟩

/-- C2 (code bug): `CartRepository` accepts no user identifier and
filters nothing by `user_id` — on a table holding one row of user 1 and
one of user 2, the list query returns both users' rows, the fetch by id
returns a row irrespective of its owner, clearing the cart deletes every
user's rows, the total sums every user's rows, and a freshly created row
records no owner at all. -/
theorem C2_repository_not_user_scoped :
    CartRepository.get_all_cart_items sharedCartDB 0 100
      = [bobCartRow, aliceCartRow] ∧
    aliceCartRow.user_id = some 1 ∧ bobCartRow.user_id = some 2 ∧
    CartRepository.get_cart_item sharedCartDB 2 = some bobCartRow ∧
    CartRepository.clear_cart sharedCartDB = (⟨[], 3⟩, 2) ∧
    CartRepository.get_cart_total_price sharedCartDB
      = aliceCartRow.total_price + bobCartRow.total_price ∧
    (CartRepository.create_cart_item sharedCartDB "book" 1 7 70).2.user_id
      = none := by
  exact ⟨rfl, rfl, rfl, rfl, rfl, rfl, rfl⟩
